import Mathlib

/-!
Shallow embedding of the `token` package of ellogroup/ello-golang-token-fetcher
(`src/token/fetcher.go`), together with theorems verifying its specification.

Modelling conventions:
* Go `time.Time` is an instant measured in integer nanoseconds; the Go zero
  `time.Time` is modelled by `ns = 0`.
* A Go `(Token, error)` return value is a `Token × Option ε` pair where `ε`
  is the (abstract) type of errors and `none` models a `nil` error.
* The `clock.Clock` dependency is modelled by the instant its `Now()` returns
  (the tests of the repository use a fixed clock in the same way).
* The `Adapter` interface is modelled by a function `Ctx → Token × Option ε`,
  with `Ctx` the opaque type of `context.Context` values.
* To express call-count and argument-propagation properties, `Fetch` and
  `refresh` additionally return the list of contexts passed to the adapter,
  in call order; the pure state passing makes the cache mutation explicit.
-/

/-- Model of Go `time.Duration` (nanoseconds). -/
abbrev GoDuration := Int

/-- Model of Go `time.Time`: an instant in nanoseconds; `ns = 0` models the zero value. -/
structure GoTime where
  ns : Int
deriving DecidableEq, Repr

/-- Go `time.Time.IsZero`. -/
def GoTime.IsZero (t : GoTime) : Bool := t.ns == 0

/-- Go `time.Time.Before` (strict order on instants). -/
def GoTime.Before (a b : GoTime) : Bool := decide (a.ns < b.ns)

/-- Go `time.Time.Add`. -/
def GoTime.Add (t : GoTime) (d : GoDuration) : GoTime := ⟨t.ns + d⟩

/-- Go `time.Minute` in nanoseconds. -/
def timeMinute : GoDuration := 60 * 1000000000

/-- The `Token` struct of fetcher.go (fields in source order, with their JSON tags
`access_token`, `token_type,omitempty`, `refresh_token,omitempty`,
`expiry,omitempty`, `created_at,omitempty`). -/
structure Token where
  AccessToken : String
  TokenType : String
  RefreshToken : String
  Expiry : GoTime
  CreatedAt : GoTime
deriving DecidableEq, Repr

/-- The Go zero value `Token{}`. -/
def Token.zero : Token := ⟨"", "", "", ⟨0⟩, ⟨0⟩⟩

/-- The `config` struct of fetcher.go. -/
structure config where
  tokenExpiryBuffer : GoDuration
deriving DecidableEq, Repr

/-- `defaultConfig` of fetcher.go: expiry buffer `time.Minute`. -/
def defaultConfig : config := ⟨timeMinute⟩

/-- The functional-option type (`Option` in the source; renamed here because Lean
reserves `Option`). -/
abbrev ConfigOption := config → config

/-- `WithTokenExpiryBuffer` of fetcher.go. -/
def WithTokenExpiryBuffer (buffer : GoDuration) : ConfigOption :=
  fun c => { c with tokenExpiryBuffer := buffer }

/-- The `Fetcher` struct of fetcher.go: configuration, clock (modelled by the
instant its `Now()` returns), adapter, and the cached token slot. -/
structure Fetcher (Ctx ε : Type) where
  config : config
  now : GoTime
  adapter : Ctx → Token × Option ε
  token : Token

/-- Result of one `Fetch`/`refresh` call: the returned `(Token, error)` pair,
the Fetcher state after the call, and the list of contexts passed to the
adapter during the call, in order. -/
structure FetchResult (Ctx ε : Type) where
  token : Token
  err : Option ε
  state : Fetcher Ctx ε
  calls : List Ctx

/-- `Fetcher.refreshRequired` of fetcher.go, line for line:
`f.token.AccessToken == "" || (!f.token.Expiry.IsZero() && f.token.Expiry.Before(f.clock.Now().Add(f.config.tokenExpiryBuffer)))`. -/
def Fetcher.refreshRequired {Ctx ε : Type} (f : Fetcher Ctx ε) : Bool :=
  f.token.AccessToken == "" ||
    (!(f.token.Expiry.IsZero) && f.token.Expiry.Before (f.now.Add f.config.tokenExpiryBuffer))

/-- `Fetcher.refresh` of fetcher.go: call the adapter with the given context;
on error return `Token{}` and the error with the cache untouched; on success
overwrite the cached token and return it. -/
def Fetcher.refresh {Ctx ε : Type} (f : Fetcher Ctx ε) (ctx : Ctx) : FetchResult Ctx ε :=
  match f.adapter ctx with
  | (_, some e) => ⟨Token.zero, some e, f, [ctx]⟩
  | (t, none) => ⟨t, none, { f with token := t }, [ctx]⟩

/-- `Fetcher.Fetch` of fetcher.go: refresh when required, otherwise serve the
cached token with no adapter call. -/
def Fetcher.Fetch {Ctx ε : Type} (f : Fetcher Ctx ε) (ctx : Ctx) : FetchResult Ctx ε :=
  if f.refreshRequired then f.refresh ctx else ⟨f.token, none, f, []⟩

/-- `New` of fetcher.go: start from `defaultConfig`, apply the options in order,
cache slot starts at the zero `Token`; the system clock is abstracted by the
`now` instant. -/
def New {Ctx ε : Type} (adapter : Ctx → Token × Option ε) (now : GoTime)
    (opts : List ConfigOption) : Fetcher Ctx ε :=
  { config := opts.foldl (fun c opt => opt c) defaultConfig
    now := now
    adapter := adapter
    token := Token.zero }

/-- Fixture: the token `{AccessToken: "token-123"}` used by the repository tests. -/
def tok123 : Token := { Token.zero with AccessToken := "token-123" }

/-- Fixture: a Fetcher holding a valid cached token (no expiry), whose adapter
would fail if it were ever called. -/
def fHit : Fetcher Nat Unit :=
  { config := defaultConfig, now := ⟨0⟩,
    adapter := fun _ => (Token.zero, some ()), token := tok123 }

/-- Fixture: a Fetcher with nonzero `now`, cached token expiring exactly at `now`. -/
def fNowExp : Fetcher Nat Unit :=
  { config := defaultConfig, now := ⟨5⟩,
    adapter := fun _ => (Token.zero, some ()), token := { tok123 with Expiry := ⟨5⟩ } }

/-- Fixture: a Fetcher with an empty cache whose adapter succeeds with `tok123`. -/
def fEmptyOk : Fetcher Nat Unit :=
  { config := defaultConfig, now := ⟨0⟩,
    adapter := fun _ => (tok123, none), token := Token.zero }

/-- Fixture: a Fetcher with an empty cache whose adapter fails. -/
def fEmptyErr : Fetcher Nat Unit :=
  { config := defaultConfig, now := ⟨0⟩,
    adapter := fun _ => (Token.zero, some ()), token := Token.zero }

/-- Fixture: a Fetcher with an empty cache whose adapter succeeds with a Token
whose access token is the empty string. -/
def fEmptyBlank : Fetcher Nat Unit :=
  { config := defaultConfig, now := ⟨0⟩,
    adapter := fun _ => (Token.zero, none), token := Token.zero }

/-- C1 (amended): `refreshRequired` is true iff the cached access token is empty,
or the cached expiry is non-zero and strictly before `now + buffer`. In
particular it is false when the access token is non-empty and the expiry is the
zero value, false when the expiry equals `now` with buffer 0 (access token
non-empty), and true when the expiry equals `now` with any positive buffer
provided the expiry is not the zero instant. -/
theorem refreshRequired_iff {Ctx ε : Type} (f : Fetcher Ctx ε) :
    (f.refreshRequired = true ↔
      (f.token.AccessToken = "" ∨
        (f.token.Expiry.ns ≠ 0 ∧ f.token.Expiry.ns < f.now.ns + f.config.tokenExpiryBuffer)))
    ∧ (f.token.AccessToken ≠ "" → f.token.Expiry.ns = 0 → f.refreshRequired = false)
    ∧ (f.token.AccessToken ≠ "" → f.token.Expiry = f.now → f.config.tokenExpiryBuffer = 0 →
        f.refreshRequired = false)
    ∧ (f.token.Expiry = f.now → f.token.Expiry.ns ≠ 0 → 0 < f.config.tokenExpiryBuffer →
        f.refreshRequired = true) := by
  refine ⟨?_, ?_, ?_, ?_⟩
  · simp [Fetcher.refreshRequired, GoTime.IsZero, GoTime.Before, GoTime.Add]
  · intro h1 h2
    simp [Fetcher.refreshRequired, GoTime.IsZero, GoTime.Before, GoTime.Add, h1, h2]
  · intro h1 h2 h3
    simp [Fetcher.refreshRequired, GoTime.IsZero, GoTime.Before, GoTime.Add, h1, h2, h3]
  · intro h1 h2 h3
    have hbc : f.token.Expiry.ns = f.now.ns := by rw [h1]
    simp [Fetcher.refreshRequired, GoTime.IsZero, GoTime.Before, GoTime.Add]
    exact Or.inr ⟨h2, by rw [hbc]; exact lt_add_of_pos_right _ h3⟩

/-- Witness for `refreshRequired_iff`: at the concrete fixtures, a non-empty
token with zero expiry does not require refresh, and a token expiring exactly
at a nonzero `now` with the default (positive) buffer does. -/
theorem refreshRequired_iff_witness :
    fHit.refreshRequired = false ∧ fNowExp.refreshRequired = true :=
  ⟨(refreshRequired_iff fHit).2.1 (by decide) (by decide),
   (refreshRequired_iff fNowExp).2.2.2 (by decide) (by decide) (by decide)⟩

/-- Counterexample to C1 as stated: when both the cached expiry and `now` are
the zero instant, the access token is non-empty and the buffer is positive, the
claim demands refresh-required true ("expiry equals now with any positive
buffer"), but the code's non-zero-expiry guard makes it false. -/
theorem refreshRequired_zeroNow_cex :
    fHit.token.Expiry = fHit.now ∧ 0 < fHit.config.tokenExpiryBuffer ∧
    fHit.token.AccessToken ≠ "" ∧ fHit.refreshRequired = false := by
  decide

/-- C2: when the cached token does not require refresh, `Fetch` returns the
cached Token unchanged with a nil error, performs zero adapter calls, and
leaves the entire Fetcher state (cached token, configuration, clock, adapter)
exactly as before the call. -/
theorem Fetch_cacheHit {Ctx ε : Type} (f : Fetcher Ctx ε) (ctx : Ctx)
    (h : f.refreshRequired = false) :
    f.Fetch ctx = ⟨f.token, none, f, []⟩ := by
  simp [Fetcher.Fetch, h]

/-- Witness for `Fetch_cacheHit` at the valid-cached-token fixture. -/
theorem Fetch_cacheHit_witness :
    fHit.refreshRequired = false ∧ fHit.Fetch 0 = ⟨fHit.token, none, fHit, []⟩ :=
  ⟨by decide, Fetch_cacheHit fHit 0 (by decide)⟩

/-- C3: a `Fetch` call never makes more than one adapter call (no retry), and
when refresh is required it makes exactly one; if the adapter succeeds with
token `t`, the cached token is overwritten wholesale with `t` and `t` itself is
returned with a nil error. -/
theorem Fetch_refresh_once {Ctx ε : Type} (f : Fetcher Ctx ε) (ctx : Ctx) :
    (f.Fetch ctx).calls.length ≤ 1 ∧
    (f.refreshRequired = true →
      (f.Fetch ctx).calls.length = 1 ∧
      ∀ t, f.adapter ctx = (t, none) →
        f.Fetch ctx = ⟨t, none, { f with token := t }, [ctx]⟩) := by
  cases hr : f.refreshRequired with
  | false =>
    constructor
    · simp [Fetcher.Fetch, hr]
    · intro hcontra
      simp at hcontra
  | true =>
    rcases hA : f.adapter ctx with ⟨t0, e0⟩
    have hlen : (f.Fetch ctx).calls.length = 1 := by
      cases e0 <;> simp [Fetcher.Fetch, Fetcher.refresh, hr, hA]
    refine ⟨by simp [hlen], fun _ => ⟨hlen, fun t ht => ?_⟩⟩
    injection ht with h1 h2
    subst h1
    subst h2
    simp [Fetcher.Fetch, Fetcher.refresh, hr, hA]

/-- Witness for `Fetch_refresh_once` at the empty-cache fixture with a
succeeding adapter. -/
theorem Fetch_refresh_once_witness :
    (fEmptyOk.Fetch 0).calls.length = 1 ∧
    fEmptyOk.Fetch 0 = ⟨tok123, none, { fEmptyOk with token := tok123 }, [0]⟩ :=
  ⟨((Fetch_refresh_once fEmptyOk 0).2 (by decide)).1,
   ((Fetch_refresh_once fEmptyOk 0).2 (by decide)).2 tok123 rfl⟩

/-- C4: when refresh is triggered and the adapter fails with error `e`, `Fetch`
returns the zero Token together with `e` unchanged, the Fetcher state
(including the previously cached token, even an empty one) is exactly as
before the call, and the post-call state still requires refresh, so a
subsequent `Fetch` retries. -/
theorem Fetch_adapterError {Ctx ε : Type} (f : Fetcher Ctx ε) (ctx : Ctx)
    (t : Token) (e : ε) (hr : f.refreshRequired = true)
    (hA : f.adapter ctx = (t, some e)) :
    f.Fetch ctx = ⟨Token.zero, some e, f, [ctx]⟩ ∧
    (f.Fetch ctx).state.refreshRequired = true := by
  have hF : f.Fetch ctx = ⟨Token.zero, some e, f, [ctx]⟩ := by
    simp [Fetcher.Fetch, Fetcher.refresh, hr, hA]
  exact ⟨hF, by rw [hF]; exact hr⟩

/-- Witness for `Fetch_adapterError` at the empty-cache fixture with a failing
adapter. -/
theorem Fetch_adapterError_witness :
    fEmptyErr.Fetch 0 = ⟨Token.zero, some (), fEmptyErr, [0]⟩ ∧
    (fEmptyErr.Fetch 0).state.refreshRequired = true :=
  Fetch_adapterError fEmptyErr 0 Token.zero () (by decide) rfl

/-- Counterexample to C5 as stated: an adapter that returns an
empty-access-token Token with a nil error makes `Fetch` return a nil error
together with a Token whose access token is empty — the Fetcher serves it
without validation. -/
theorem Fetch_nilError_blank_cex :
    (fEmptyBlank.Fetch 0).err = none ∧
    (fEmptyBlank.Fetch 0).token.AccessToken = "" := by
  decide

/-- C5 (amended): provided the adapter only ever returns Tokens with a
non-empty access token on success, every `Fetch` call that returns a nil error
returns a Token with a non-empty access token; a cache hit always serves a
non-empty access token, but a refresh passes the adapter's Token through
unvalidated. -/
theorem Fetch_nilError_nonempty {Ctx ε : Type} (f : Fetcher Ctx ε) (ctx : Ctx)
    (hA : ∀ c t, f.adapter c = (t, none) → t.AccessToken ≠ "")
    (h : (f.Fetch ctx).err = none) :
    (f.Fetch ctx).token.AccessToken ≠ "" := by
  cases hr : f.refreshRequired with
  | true =>
    rcases hAd : f.adapter ctx with ⟨t0, e0⟩
    cases e0 with
    | none =>
      have hF : f.Fetch ctx = ⟨t0, none, { f with token := t0 }, [ctx]⟩ := by
        simp [Fetcher.Fetch, Fetcher.refresh, hr, hAd]
      rw [hF]
      exact hA ctx t0 hAd
    | some e =>
      have hF : f.Fetch ctx = ⟨Token.zero, some e, f, [ctx]⟩ := by
        simp [Fetcher.Fetch, Fetcher.refresh, hr, hAd]
      rw [hF] at h
      simp at h
  | false =>
    have hF : f.Fetch ctx = ⟨f.token, none, f, []⟩ := by simp [Fetcher.Fetch, hr]
    rw [hF]
    intro hEmpty
    have hE : f.token.AccessToken = "" := hEmpty
    simp [Fetcher.refreshRequired, hE] at hr

/-- Witness for `Fetch_nilError_nonempty` at the empty-cache fixture whose
adapter succeeds with a non-empty access token. -/
theorem Fetch_nilError_nonempty_witness :
    (fEmptyOk.Fetch 0).err = none ∧ (fEmptyOk.Fetch 0).token.AccessToken ≠ "" :=
  ⟨by decide,
   Fetch_nilError_nonempty fEmptyOk 0
    (by
      intro c t h
      have h1 : tok123 = t := congrArg Prod.fst h
      rw [← h1]
      decide)
    (by decide)⟩

/-- C8: the list of contexts handed to the adapter during a `Fetch` call is
`[ctx]` when refresh is triggered and `[]` otherwise — the adapter is only
ever invoked with exactly the caller's context value, unchanged, and the
Fetcher attaches no timeout or deadline of its own. -/
theorem Fetch_ctx_propagation {Ctx ε : Type} (f : Fetcher Ctx ε) (ctx : Ctx) :
    (f.Fetch ctx).calls = if f.refreshRequired then [ctx] else [] := by
  cases hr : f.refreshRequired with
  | false => simp [Fetcher.Fetch, hr]
  | true =>
    rcases hA : f.adapter ctx with ⟨t0, e0⟩
    cases e0 <;> simp [Fetcher.Fetch, Fetcher.refresh, hr, hA]

/-- The `GetSecretValueInput` struct of the secrets-manager client, restricted
to the one field the adapter sets (`SecretId`, from `aws.String(a.key)`). -/
structure GetSecretValueInput where
  SecretId : String
deriving DecidableEq, Repr

/-- The `GetSecretValueOutput` struct, restricted to the one field the adapter
reads; `SecretString` is a `*string` in Go, so `none` models a nil pointer. -/
structure GetSecretValueOutput where
  SecretString : Option String
deriving DecidableEq, Repr

/-- Errors produced by `awsSecretsManagerAdapter.Fetch`: `fmt.Errorf` wrapping
of the underlying cause with a message tag, one constructor per `%w` site. -/
inductive SMError (σ π : Type) where
  | fetchWrap (tag : String) (cause : σ)
  | parseWrap (tag : String) (cause : π)
deriving DecidableEq, Repr

/-- The tag of the error wrapping a failed `GetSecretValue` call (fetcher.go
line 101). -/
def fetchTag : String := "unable to fetch token from secrets manager"

/-- The tag of the error wrapping a failed `json.Unmarshal` (fetcher.go
line 106). -/
def parseTag : String := "unable to parse token from secrets manager"

/-- The `awsSecretsManagerAdapter` struct: a secrets-manager client (modelled
as a function from context and input to a result or an error of type `σ`) and
the secret lookup key. -/
structure awsSecretsManagerAdapter (Ctx σ : Type) where
  client : Ctx → GetSecretValueInput → Except σ GetSecretValueOutput
  key : String

/-- `awsSecretsManagerAdapter.Fetch` of fetcher.go; `parse` models
`json.Unmarshal` of the payload into a `Token` with parse errors of type `π`.
The overall `none` result models the nil-pointer dereference `*out.SecretString`
performed when the store succeeded but returned no string payload; every other
path yields `some` of the Go `(Token, error)` pair. -/
def awsSecretsManagerAdapter.Fetch {Ctx σ π : Type}
    (a : awsSecretsManagerAdapter Ctx σ) (parse : String → Except π Token)
    (ctx : Ctx) : Option (Token × Option (SMError σ π)) :=
  match a.client ctx ⟨a.key⟩ with
  | .error e => some (Token.zero, some (.fetchWrap fetchTag e))
  | .ok out =>
    match out.SecretString with
    | none => none
    | some s =>
      match parse s with
      | .error e => some (Token.zero, some (.parseWrap parseTag e))
      | .ok t => some (t, none)

/-- Fixture: an adapter whose store client fails. -/
def smErr : awsSecretsManagerAdapter Nat Unit := ⟨fun _ _ => .error (), "k"⟩

/-- Fixture: an adapter whose store client succeeds with payload "payload". -/
def smOk : awsSecretsManagerAdapter Nat Unit := ⟨fun _ _ => .ok ⟨some "payload"⟩, "k"⟩

/-- Fixture: an adapter whose store client succeeds with a nil SecretString. -/
def smNil : awsSecretsManagerAdapter Nat Unit := ⟨fun _ _ => .ok ⟨none⟩, "k"⟩

/-- Fixture: a parse function that always fails. -/
def parseFail : String → Except Unit Token := fun _ => .error ()

/-- Fixture: a parse function that always succeeds with `tok123`. -/
def parseOkTok : String → Except Unit Token := fun _ => .ok tok123

/-- C6 (amended): the adapter's Fetch fails exactly when the store call or the
parse fails: on store error `e` it returns the zero Token and an error wrapping
`e` tagged "unable to fetch token from secrets manager"; on parse error `e` it
returns the zero Token and an error wrapping `e` tagged "unable to parse token
from secrets manager"; when both succeed it returns the parsed Token with a nil
error — no failure case returns a partially populated Token. -/
theorem awsFetch_error_cases {Ctx σ π : Type} (a : awsSecretsManagerAdapter Ctx σ)
    (parse : String → Except π Token) (ctx : Ctx) :
    (∀ e, a.client ctx ⟨a.key⟩ = .error e →
      a.Fetch parse ctx = some (Token.zero, some (.fetchWrap fetchTag e)))
    ∧ (∀ out s e, a.client ctx ⟨a.key⟩ = .ok out → out.SecretString = some s →
        parse s = .error e →
        a.Fetch parse ctx = some (Token.zero, some (.parseWrap parseTag e)))
    ∧ (∀ out s t, a.client ctx ⟨a.key⟩ = .ok out → out.SecretString = some s →
        parse s = .ok t → a.Fetch parse ctx = some (t, none)) := by
  refine ⟨fun e h => ?_, fun out s e h1 h2 h3 => ?_, fun out s t h1 h2 h3 => ?_⟩
  · simp [awsSecretsManagerAdapter.Fetch, h]
  · simp [awsSecretsManagerAdapter.Fetch, h1, h2, h3]
  · simp [awsSecretsManagerAdapter.Fetch, h1, h2, h3]

/-- Witness for `awsFetch_error_cases` at the three concrete fixtures: failing
store, succeeding store with failing parse, and fully succeeding path. -/
theorem awsFetch_error_cases_witness :
    smErr.Fetch parseOkTok 0 = some (Token.zero, some (.fetchWrap fetchTag ())) ∧
    smOk.Fetch parseFail 0 = some (Token.zero, some (.parseWrap parseTag ())) ∧
    smOk.Fetch parseOkTok 0 = some (tok123, none) :=
  ⟨(awsFetch_error_cases smErr parseOkTok 0).1 () rfl,
   (awsFetch_error_cases smOk parseFail 0).2.1 ⟨some "payload"⟩ "payload" () rfl rfl rfl,
   (awsFetch_error_cases smOk parseOkTok 0).2.2 ⟨some "payload"⟩ "payload" tok123 rfl rfl rfl⟩

/-- Counterexample to C6 as stated: on a store failure the error tag produced
by the code is "unable to fetch token from secrets manager", which is not the
tag "unable to fetch token from store" stated by the claim. -/
theorem awsFetch_tag_cex :
    smErr.Fetch parseOkTok 0 = some (Token.zero, some (.fetchWrap fetchTag ())) ∧
    fetchTag ≠ "unable to fetch token from store" ∧
    parseTag ≠ "unable to parse token from store" :=
  ⟨rfl, by decide, by decide⟩

/-- C10: the adapter's Fetch is total (returns a Go `(Token, error)` pair)
exactly when its precondition holds; the undefined (nil-pointer-dereference)
case arises exactly when the store call succeeds but carries no secret string. -/
theorem awsFetch_nil_deref_iff {Ctx σ π : Type} (a : awsSecretsManagerAdapter Ctx σ)
    (parse : String → Except π Token) (ctx : Ctx) :
    a.Fetch parse ctx = none ↔
      ∃ out, a.client ctx ⟨a.key⟩ = .ok out ∧ out.SecretString = none := by
  constructor
  · intro h
    unfold awsSecretsManagerAdapter.Fetch at h
    rcases hc : a.client ctx ⟨a.key⟩ with e | out
    · rw [hc] at h
      simp at h
    · rcases hs : out.SecretString with _ | s
      · exact ⟨out, rfl, hs⟩
      · rw [hc] at h
        simp [hs] at h
        rcases hp : parse s with e | t <;> rw [hp] at h <;> simp at h
  · rintro ⟨out, hc, hs⟩
    simp [awsSecretsManagerAdapter.Fetch, hc, hs]

/-- Witness for `awsFetch_nil_deref_iff` at the nil-SecretString fixture. -/
theorem awsFetch_nil_deref_witness : smNil.Fetch parseOkTok 0 = none :=
  (awsFetch_nil_deref_iff smNil parseOkTok 0).mpr ⟨⟨none⟩, rfl, rfl⟩

/-- The secret payload: the JSON record consumed and produced for `Token`
under its struct tags; a field holds `none` when absent from the record. -/
structure SecretPayload where
  access_token : Option String
  token_type : Option String
  refresh_token : Option String
  expiry : Option GoTime
  created_at : Option GoTime
deriving DecidableEq, Repr

/-- Encoding of a `Token` to the secret payload, following `encoding/json`
marshalling under the struct tags of `Token`: `access_token` carries no
`omitempty` and is always emitted; the `omitempty` on `token_type` and
`refresh_token` drops them when they are the empty string; the `omitempty` on
`expiry` and `created_at` has no effect because `time.Time` is a struct and
struct values are never "empty", so both are always emitted. -/
def encodeToken (t : Token) : SecretPayload :=
  { access_token := some t.AccessToken
    token_type := if t.TokenType == "" then none else some t.TokenType
    refresh_token := if t.RefreshToken == "" then none else some t.RefreshToken
    expiry := some t.Expiry
    created_at := some t.CreatedAt }

/-- Decoding of a secret payload into a `Token`, following `encoding/json`
unmarshalling: a field absent from the record leaves the corresponding
zero value in place. -/
def decodePayload (p : SecretPayload) : Token :=
  { AccessToken := p.access_token.getD ""
    TokenType := p.token_type.getD ""
    RefreshToken := p.refresh_token.getD ""
    Expiry := p.expiry.getD ⟨0⟩
    CreatedAt := p.created_at.getD ⟨0⟩ }

/-- C7: encoding any `Token` to the secret payload and decoding it back yields
the original Token, field for field; and a payload carrying only
`access_token` decodes with every optional field at its empty/zero value. -/
theorem token_payload_roundtrip (t : Token) :
    decodePayload (encodeToken t) = t ∧
    (∀ s, decodePayload ⟨some s, none, none, none, none⟩ =
      { Token.zero with AccessToken := s }) := by
  constructor
  · cases t with
  | mk a ty r ex cr =>
    simp only [encodeToken, decodePayload]
    by_cases hty : ty = "" <;> by_cases hr : r = "" <;>
      simp [hty, hr, Option.getD, Token.zero]
  · intro s
    simp [decodePayload, Token.zero]

/-- C9: building a Fetcher with no options configures the default 1-minute
expiry buffer; building it with options ending in `WithTokenExpiryBuffer d`
configures exactly `d`, the later option overriding any earlier ones. The
cache slot always starts empty. -/
theorem New_expiry_buffer {Ctx ε : Type} (adapter : Ctx → Token × Option ε)
    (now : GoTime) :
    (New adapter now []).config.tokenExpiryBuffer = timeMinute ∧
    (∀ (opts : List ConfigOption) (d : GoDuration),
      (New adapter now (opts ++ [WithTokenExpiryBuffer d])).config.tokenExpiryBuffer = d) ∧
    (∀ opts, (New adapter now opts).token = Token.zero) := by
  refine ⟨rfl, fun opts d => ?_, fun opts => rfl⟩
  simp [New, WithTokenExpiryBuffer, List.foldl_append]
